import Mathlib

set_option autoImplicit false

/-!
Shallow embedding of jedi/evaluate/recursion.py: the statement-level
recursion guard (RecursionDetector together with _RecursionNode) and the
execution-level guard (ExecutionRecursionDetector).

External collaborators are modelled at their interface boundary:
module identities (results of get_parent_until) are natural numbers with the
distinguished compiled.builtin module as builtinModule; the class test
isinstance(base, iterable.Array | iterable.Generator) is a boolean attribute
of the callable identity; the jedi.settings integers are a record passed to
push_execution.  A raised exception (IndexError from list.pop on an empty
list) is modelled by Option: none is the raise.
-/

namespace JediRecursion

/-- Identity of a module object (the value of get_parent_until). -/
abbrev Module := Nat

/-- The distinguished compiled.builtin module object. -/
def builtinModule : Module := 0

/-- A statement as the guard observes it: the module stmt.get_parent_until()
returns and the source position stmt.start_pos. -/
structure Stmt where
  parent_until : Module
  start_pos : Nat × Nat
deriving DecidableEq

/-- _RecursionNode: script = stmt.get_parent_until(), position =
stmt.start_pos, the statement itself, and is_ignored = (script ==
compiled.builtin).  The parent link is represented by the node's position
in the detector chain list. -/
structure RecursionNode where
  script : Module
  position : Nat × Nat
  stmt : Stmt
  is_ignored : Bool
deriving DecidableEq

/-- Constructor of _RecursionNode from a statement. -/
def mkRecursionNode (stmt : Stmt) : RecursionNode :=
  { script := stmt.parent_until
    position := stmt.start_pos
    stmt := stmt
    is_ignored := stmt.parent_until == builtinModule }

/-- _RecursionNode.__eq__ against a non-None other: script and position
match and neither node is ignored (builtin).  Comparison against None is
falsy in the caller and is handled by the end-of-chain case of
check_recursion below. -/
def nodeEq (a b : RecursionNode) : Bool :=
  a.script == b.script && a.position == b.position
    && !a.is_ignored && !b.is_ignored

/-- RecursionDetector state: the ancestry chain, current node first (each
node's parent is the next list entry; self.current is None iff the list is
empty). -/
structure RecursionDetector where
  chain : List RecursionNode
deriving DecidableEq

/-- RecursionDetector.__init__: no current node. -/
def initRecursionDetector : RecursionDetector := { chain := [] }

/-- RecursionDetector._check_recursion: starting at the freshly pushed
current node, walk parent by parent comparing each ancestor with the
current node; return the matching ancestor, or none when the walk reaches
None (current == None is falsy, then the loop returns False). -/
def checkRecursion (current : RecursionNode) :
    List RecursionNode → Option RecursionNode
  | [] => none
  | n :: rest => if nodeEq current n then some n else checkRecursion current rest

/-- RecursionDetector.push_stmt: link a fresh node for stmt as the new
current node, then run _check_recursion; on a match, pop the node just
pushed (restoring the chain) and return True, otherwise keep it and return
False. -/
def RecursionDetector.push_stmt (s : RecursionDetector) (stmt : Stmt) :
    Bool × RecursionDetector :=
  let node := mkRecursionNode stmt
  match checkRecursion node s.chain with
  | some _ => (true, s)
  | none => (false, { chain := node :: s.chain })

/-- RecursionDetector.pop_stmt: replace current with its parent; a no-op
when current is None. -/
def RecursionDetector.pop_stmt (s : RecursionDetector) : RecursionDetector :=
  match s.chain with
  | [] => s
  | _ :: rest => { chain := rest }

/-- RecursionDetector.node_statements: the statements of the chain, oldest
(root) first. -/
def RecursionDetector.node_statements (s : RecursionDetector) : List Stmt :=
  (s.chain.map RecursionNode.stmt).reverse

/-- The callable identity execution.base.  Membership in the guard's set
and stack compares these identities; isIterable models isinstance(base,
iterable.Array | iterable.Generator), a fixed property of the object. -/
structure Base where
  id : Nat
  isIterable : Bool
deriving DecidableEq

/-- An execution: its base (callable identity) and the module that
execution.get_parent_until() yields. -/
structure Execution where
  base : Base
  parent_until : Module
deriving DecidableEq

/-- The jedi.settings integers consulted by push_execution. -/
structure Settings where
  max_executions : Nat
  max_executions_without_builtins : Nat
  max_function_recursion_level : Nat
  max_until_execution_unique : Nat
deriving DecidableEq

/-- ExecutionRecursionDetector state: nesting depth, the current-path stack
(appended at the tail, popped from the tail, as a Python list), the ever
seen set, and the monotonic total execution count. -/
structure ExecutionRecursionDetector where
  recursion_level : Int
  parent_execution_funcs : List Base
  execution_funcs : Finset Base
  execution_count : Nat
deriving DecidableEq

/-- ExecutionRecursionDetector.__init__. -/
def initExecutionDetector : ExecutionRecursionDetector :=
  { recursion_level := 0
    parent_execution_funcs := []
    execution_funcs := ∅
    execution_count := 0 }

/-- ExecutionRecursionDetector.pop_execution: list.pop() on the stack, then
decrement recursion_level.  list.pop() raises IndexError on an empty list,
modelled as none; the decrement is then never reached. -/
def ExecutionRecursionDetector.pop_execution
    (s : ExecutionRecursionDetector) : Option ExecutionRecursionDetector :=
  if s.parent_execution_funcs = [] then
    none
  else
    some { s with
      parent_execution_funcs := s.parent_execution_funcs.dropLast
      recursion_level := s.recursion_level - 1 }

/-- ExecutionRecursionDetector.push_execution: sample the two memberships,
mutate the state unconditionally (increment depth and count, add the base
to the seen set, append it to the path stack), then run the check cascade
on the mutated state. -/
def ExecutionRecursionDetector.push_execution (st : Settings)
    (s : ExecutionRecursionDetector) (e : Execution) :
    Bool × ExecutionRecursionDetector :=
  let in_par_execution_funcs := decide (e.base ∈ s.parent_execution_funcs)
  let in_execution_funcs := decide (e.base ∈ s.execution_funcs)
  let s' : ExecutionRecursionDetector :=
    { recursion_level := s.recursion_level + 1
      parent_execution_funcs := s.parent_execution_funcs ++ [e.base]
      execution_funcs := insert e.base s.execution_funcs
      execution_count := s.execution_count + 1 }
  let result : Bool :=
    if s'.execution_count > st.max_executions then
      true
    else if e.base.isIterable then
      false
    else if e.parent_until = builtinModule then
      false
    else if in_par_execution_funcs
        && decide (s'.recursion_level > (st.max_function_recursion_level : Int)) then
      true
    else if in_execution_funcs
        && decide (s'.execution_funcs.card > st.max_until_execution_unique) then
      true
    else
      decide (s'.execution_count > st.max_executions_without_builtins)
  (result, s')

/-! Shared helper lemmas. -/

/-- The state component returned by push_execution is the unconditional
mutation of the input state; the check cascade only chooses the boolean. -/
theorem push_execution_snd (st : Settings) (s : ExecutionRecursionDetector)
    (e : Execution) :
    (ExecutionRecursionDetector.push_execution st s e).2 =
      { recursion_level := s.recursion_level + 1
        parent_execution_funcs := s.parent_execution_funcs ++ [e.base]
        execution_funcs := insert e.base s.execution_funcs
        execution_count := s.execution_count + 1 } := rfl

/-- The boolean component of push_execution, written as a cascade over the
input state's fields. -/
theorem push_execution_fst (st : Settings) (s : ExecutionRecursionDetector)
    (e : Execution) :
    (ExecutionRecursionDetector.push_execution st s e).1 =
      if s.execution_count + 1 > st.max_executions then true
      else if e.base.isIterable then false
      else if e.parent_until = builtinModule then false
      else if decide (e.base ∈ s.parent_execution_funcs)
          && decide (s.recursion_level + 1 > (st.max_function_recursion_level : Int)) then
        true
      else if decide (e.base ∈ s.execution_funcs)
          && decide ((insert e.base s.execution_funcs).card > st.max_until_execution_unique) then
        true
      else decide (s.execution_count + 1 > st.max_executions_without_builtins) := rfl

/-- A push_stmt that reports no recursion links the fresh node in front of
the old chain. -/
theorem push_stmt_false_snd (s : RecursionDetector) (a : Stmt)
    (h : (RecursionDetector.push_stmt s a).1 = false) :
    (RecursionDetector.push_stmt s a).2 =
      { chain := mkRecursionNode a :: s.chain } := by
  cases hc : checkRecursion (mkRecursionNode a) s.chain with
  | some n => simp [RecursionDetector.push_stmt, hc] at h
  | none => simp [RecursionDetector.push_stmt, hc]

/-- An ignored (builtin) node compares unequal to every ancestor, so the
ancestor walk never finds a match for it. -/
theorem checkRecursion_of_ignored (c : RecursionNode) (h : c.is_ignored = true) :
    ∀ l : List RecursionNode, checkRecursion c l = none := by
  intro l
  induction l with
  | nil => rfl
  | cons n rest ih => simp [checkRecursion, nodeEq, h, ih]

/-- A properly nested sequence of push_stmt calls that all returned false
and their matching pop_stmt calls, executed in LIFO order, leading from one
detector state to another. -/
inductive Balanced : RecursionDetector → RecursionDetector → Prop where
  | nil (s : RecursionDetector) : Balanced s s
  | seq (s t u : RecursionDetector) (stmt : Stmt)
      (hpush : (RecursionDetector.push_stmt s stmt).1 = false)
      (hin : Balanced (RecursionDetector.push_stmt s stmt).2 t)
      (hrest : Balanced (RecursionDetector.pop_stmt t) u) :
      Balanced s u

/-- Every balanced push/pop sequence restores the detector state exactly. -/
theorem balanced_state_eq {s s' : RecursionDetector} (h : Balanced s s') :
    s' = s := by
  induction h with
  | nil s => rfl
  | seq s t u stmt hpush hin hrest ih1 ih2 =>
      rw [ih2, ih1, push_stmt_false_snd s stmt hpush]
      rfl

/-- The invariant relating the current-path stack and the nesting depth of
the execution guard. -/
def ExecInv (s : ExecutionRecursionDetector) : Prop :=
  (s.parent_execution_funcs.length : Int) = s.recursion_level

/-! Claim theorems. -/

/-- C2 counterexample: on a guard with an empty current-path stack,
pop_execution raises IndexError (list.pop on an empty list), modelled as
none; it does not silently decrement as the claim states. -/
theorem c2_counterexample :
    initExecutionDetector.parent_execution_funcs = []
    ∧ ExecutionRecursionDetector.pop_execution initExecutionDetector = none :=
  ⟨rfl, rfl⟩

/-- C2 (amended): RecursionDetector.pop_stmt on a guard with no current
node is a no-op that does not change observable state; but
ExecutionRecursionDetector.pop_execution on a guard with an empty
current-path stack raises IndexError from list.pop (modelled as none)
rather than silently decrementing. -/
theorem c2_pop_without_push (s : RecursionDetector)
    (t : ExecutionRecursionDetector)
    (hs : s.chain = []) (ht : t.parent_execution_funcs = []) :
    RecursionDetector.pop_stmt s = s
    ∧ ExecutionRecursionDetector.pop_execution t = none := by
  constructor
  · obtain ⟨chain⟩ := s
    simp only at hs
    subst hs
    rfl
  · simp only [ExecutionRecursionDetector.pop_execution, if_pos ht]

/-- C2 witness. -/
theorem c2_pop_without_push_witness :
    RecursionDetector.pop_stmt initRecursionDetector = initRecursionDetector
    ∧ ExecutionRecursionDetector.pop_execution initExecutionDetector = none :=
  c2_pop_without_push initRecursionDetector initExecutionDetector rfl rfl

/-- C3: once execution_count exceeds max_executions, every subsequent
push_execution returns true (even for a fresh, never-seen, non-builtin
target: the state and execution are universally quantified); push always
increments the counter by one and pop_execution never changes it, so the
counter is never decremented or reset. -/
theorem c3_global_budget_is_absolute :
    (∀ (st : Settings) (s : ExecutionRecursionDetector) (e : Execution),
        st.max_executions < s.execution_count →
        (ExecutionRecursionDetector.push_execution st s e).1 = true)
    ∧ (∀ (st : Settings) (s : ExecutionRecursionDetector) (e : Execution),
        (ExecutionRecursionDetector.push_execution st s e).2.execution_count
          = s.execution_count + 1)
    ∧ (∀ (s s' : ExecutionRecursionDetector),
        ExecutionRecursionDetector.pop_execution s = some s' →
        s'.execution_count = s.execution_count) := by
  refine ⟨fun st s e h => ?_, fun st s e => ?_, fun s s' h => ?_⟩
  · rw [push_execution_fst, if_pos (by omega)]
  · rw [push_execution_snd]
  · simp only [ExecutionRecursionDetector.pop_execution] at h
    split at h
    · exact Option.noConfusion h
    · have := Option.some_inj.mp h
      subst this
      rfl

/-- C3 witness. -/
theorem c3_global_budget_is_absolute_witness :
    (ExecutionRecursionDetector.push_execution ⟨3, 3, 3, 3⟩ ⟨0, [], ∅, 5⟩
        ⟨⟨1, false⟩, 1⟩).1 = true
    ∧ (ExecutionRecursionDetector.push_execution ⟨3, 3, 3, 3⟩ ⟨0, [], ∅, 5⟩
        ⟨⟨1, false⟩, 1⟩).2.execution_count = 5 + 1
    ∧ (⟨0, [], ∅, 7⟩ : ExecutionRecursionDetector).execution_count
        = (⟨1, [⟨1, false⟩], ∅, 7⟩ : ExecutionRecursionDetector).execution_count :=
  ⟨c3_global_budget_is_absolute.1 ⟨3, 3, 3, 3⟩ ⟨0, [], ∅, 5⟩ ⟨⟨1, false⟩, 1⟩
      (by decide),
    c3_global_budget_is_absolute.2.1 ⟨3, 3, 3, 3⟩ ⟨0, [], ∅, 5⟩ ⟨⟨1, false⟩, 1⟩,
    c3_global_budget_is_absolute.2.2 ⟨1, [⟨1, false⟩], ∅, 7⟩ ⟨0, [], ∅, 7⟩
      (by decide)⟩

/-- C5: after push_stmt of a non-builtin statement a returned false, a
second push_stmt of a statement with the same module and source position
(before the first is popped) returns true and leaves the ancestry chain
exactly as before that second push; consequently a subsequent pop_stmt
followed by node_statements matches the state after only the first push. -/
theorem c5_repush_same_position_detected (s : RecursionDetector) (a a' : Stmt)
    (hmod : a'.parent_until = a.parent_until)
    (hpos : a'.start_pos = a.start_pos)
    (hnb : a.parent_until ≠ builtinModule)
    (hfirst : (RecursionDetector.push_stmt s a).1 = false) :
    (RecursionDetector.push_stmt (RecursionDetector.push_stmt s a).2 a').1 = true
    ∧ (RecursionDetector.push_stmt (RecursionDetector.push_stmt s a).2 a').2
        = (RecursionDetector.push_stmt s a).2
    ∧ RecursionDetector.node_statements (RecursionDetector.pop_stmt
        (RecursionDetector.push_stmt (RecursionDetector.push_stmt s a).2 a').2)
      = RecursionDetector.node_statements (RecursionDetector.pop_stmt
          (RecursionDetector.push_stmt s a).2) := by
  have hEq : nodeEq (mkRecursionNode a') (mkRecursionNode a) = true := by
    simp [nodeEq, mkRecursionNode, hmod, hpos, hnb]
  rw [push_stmt_false_snd s a hfirst]
  refine ⟨?_, ?_, ?_⟩ <;>
    simp [RecursionDetector.push_stmt, checkRecursion, hEq]

/-- C5 witness. -/
theorem c5_repush_same_position_detected_witness :
    (RecursionDetector.push_stmt
        (RecursionDetector.push_stmt initRecursionDetector ⟨1, (2, 3)⟩).2
        ⟨1, (2, 3)⟩).1 = true
    ∧ (RecursionDetector.push_stmt
        (RecursionDetector.push_stmt initRecursionDetector ⟨1, (2, 3)⟩).2
        ⟨1, (2, 3)⟩).2
        = (RecursionDetector.push_stmt initRecursionDetector ⟨1, (2, 3)⟩).2
    ∧ RecursionDetector.node_statements (RecursionDetector.pop_stmt
        (RecursionDetector.push_stmt
          (RecursionDetector.push_stmt initRecursionDetector ⟨1, (2, 3)⟩).2
          ⟨1, (2, 3)⟩).2)
      = RecursionDetector.node_statements (RecursionDetector.pop_stmt
          (RecursionDetector.push_stmt initRecursionDetector ⟨1, (2, 3)⟩).2) :=
  c5_repush_same_position_detected initRecursionDetector ⟨1, (2, 3)⟩ ⟨1, (2, 3)⟩
    rfl rfl (by decide) (by decide)

/-- C6: two identity tokens compare equal iff module identity and source
position both match and neither token is builtin-marked; consequently
push_stmt of a builtin-flagged statement never returns true, on any chain,
so nesting it inside a push at the same position returns false as well. -/
theorem c6_token_equality_rule :
    (∀ a b : RecursionNode, nodeEq a b = true ↔
        (a.script = b.script ∧ a.position = b.position
          ∧ a.is_ignored = false ∧ b.is_ignored = false))
    ∧ (∀ (s : RecursionDetector) (t : Stmt), t.parent_until = builtinModule →
        (RecursionDetector.push_stmt s t).1 = false) := by
  constructor
  · intro a b
    simp [nodeEq, and_assoc]
  · intro s t ht
    have hig : (mkRecursionNode t).is_ignored = true := by
      simp [mkRecursionNode, ht]
    simp [RecursionDetector.push_stmt,
      checkRecursion_of_ignored (mkRecursionNode t) hig s.chain]

/-- C6 witness. -/
theorem c6_token_equality_rule_witness :
    (nodeEq ⟨1, (2, 3), ⟨1, (2, 3)⟩, false⟩ ⟨1, (2, 3), ⟨1, (2, 3)⟩, false⟩ = true ↔
        ((1 : Module) = 1 ∧ ((2 : Nat), (3 : Nat)) = ((2 : Nat), (3 : Nat))
          ∧ false = false ∧ false = false))
    ∧ (RecursionDetector.push_stmt
        (RecursionDetector.push_stmt initRecursionDetector
          ⟨builtinModule, (2, 3)⟩).2 ⟨builtinModule, (2, 3)⟩).1 = false :=
  ⟨c6_token_equality_rule.1 ⟨1, (2, 3), ⟨1, (2, 3)⟩, false⟩
      ⟨1, (2, 3), ⟨1, (2, 3)⟩, false⟩,
    c6_token_equality_rule.2
      (RecursionDetector.push_stmt initRecursionDetector
        ⟨builtinModule, (2, 3)⟩).2 ⟨builtinModule, (2, 3)⟩ rfl⟩

/-- C7: every balanced sequence of push_stmt calls that returned false and
matching pop_stmt calls in LIFO order, starting from the fresh detector,
unwinds to a state whose node_statements is the empty sequence. -/
theorem c7_lifo_unwind_empty (s' : RecursionDetector)
    (h : Balanced initRecursionDetector s') :
    RecursionDetector.node_statements s' = [] := by
  rw [balanced_state_eq h]
  rfl

/-- C7 witness: one push (returning false) followed by its pop. -/
theorem c7_lifo_unwind_empty_witness :
    RecursionDetector.node_statements
      (RecursionDetector.pop_stmt
        (RecursionDetector.push_stmt initRecursionDetector ⟨1, (1, 1)⟩).2) = [] :=
  c7_lifo_unwind_empty _
    (Balanced.seq initRecursionDetector
      (RecursionDetector.push_stmt initRecursionDetector ⟨1, (1, 1)⟩).2
      (RecursionDetector.pop_stmt
        (RecursionDetector.push_stmt initRecursionDetector ⟨1, (1, 1)⟩).2)
      ⟨1, (1, 1)⟩ rfl (Balanced.nil _) (Balanced.nil _))

/-- C8: len(parent_execution_funcs) = recursion_level holds on a fresh
guard and is preserved by every completed push_execution (whatever its
boolean result) and every completed pop_execution. -/
theorem c8_level_stack_invariant :
    ExecInv initExecutionDetector
    ∧ (∀ (st : Settings) (s : ExecutionRecursionDetector) (e : Execution),
        ExecInv s →
        ExecInv (ExecutionRecursionDetector.push_execution st s e).2)
    ∧ (∀ (s s' : ExecutionRecursionDetector),
        ExecutionRecursionDetector.pop_execution s = some s' →
        ExecInv s → ExecInv s') := by
  refine ⟨rfl, fun st s e h => ?_, fun s s' hp h => ?_⟩
  · rw [push_execution_snd]
    simp only [ExecInv] at h ⊢
    simp only [List.length_append, List.length_singleton]
    push_cast
    omega
  · simp only [ExecutionRecursionDetector.pop_execution] at hp
    split at hp
    · exact Option.noConfusion hp
    · rename_i hne
      have := Option.some_inj.mp hp
      subst this
      simp only [ExecInv] at h ⊢
      simp only [List.length_dropLast]
      have hlen : 1 ≤ s.parent_execution_funcs.length :=
        List.length_pos.mpr hne
      omega

/-- C8 witness. -/
theorem c8_level_stack_invariant_witness :
    ExecInv initExecutionDetector
    ∧ ExecInv (ExecutionRecursionDetector.push_execution ⟨3, 3, 3, 3⟩
        initExecutionDetector ⟨⟨1, false⟩, 1⟩).2
    ∧ ExecInv (⟨0, [], ∅, 7⟩ : ExecutionRecursionDetector) :=
  ⟨c8_level_stack_invariant.1,
    c8_level_stack_invariant.2.1 ⟨3, 3, 3, 3⟩ initExecutionDetector
      ⟨⟨1, false⟩, 1⟩ c8_level_stack_invariant.1,
    c8_level_stack_invariant.2.2 ⟨1, [⟨1, false⟩], ∅, 7⟩ ⟨0, [], ∅, 7⟩
      (by decide) rfl⟩

/-- C9: push_execution performs the same state mutations whether it returns
true or false: it increments recursion_level and execution_count by one,
adds the base to the ever-seen set and appends it to the current-path
stack, and modifies nothing else (the result state is exactly this record,
for every input state, execution and settings). -/
theorem c9_push_effects_independent_of_result (st : Settings)
    (s : ExecutionRecursionDetector) (e : Execution) :
    (ExecutionRecursionDetector.push_execution st s e).2 =
      { recursion_level := s.recursion_level + 1
        parent_execution_funcs := s.parent_execution_funcs ++ [e.base]
        execution_funcs := insert e.base s.execution_funcs
        execution_count := s.execution_count + 1 } := rfl

/-- C1 counterexample: with max_executions = 250 and
max_executions_without_builtins = 200, a push at execution_count 200 of a
fresh non-container target from a non-builtin module satisfies every
hypothesis of the claim (count within max_executions, not a container, not
builtin, depth check silent, breadth check silent), yet push_execution
returns true: the final statement of the function returns
execution_count > max_executions_without_builtins, not false. -/
theorem c1_counterexample :
    (ExecutionRecursionDetector.push_execution ⟨250, 200, 10, 6⟩
        ⟨0, [], ∅, 200⟩ ⟨⟨1, false⟩, 1⟩).2.execution_count ≤ 250
    ∧ (⟨1, false⟩ : Base).isIterable = false
    ∧ (1 : Module) ≠ builtinModule
    ∧ ¬((⟨1, false⟩ : Base) ∈ ([] : List Base)
        ∧ ((0 : Int) + 1 > ((10 : Nat) : Int)))
    ∧ ¬((⟨1, false⟩ : Base) ∈ (∅ : Finset Base))
    ∧ (ExecutionRecursionDetector.push_execution ⟨250, 200, 10, 6⟩
        ⟨0, [], ∅, 200⟩ ⟨⟨1, false⟩, 1⟩).1 = true := by
  decide

/-- C1 (amended): if none of the earlier checks fires and additionally the
incremented execution_count does not exceed max_executions_without_builtins,
then push_execution returns false; in general the fall-through case returns
the comparison execution_count > max_executions_without_builtins rather
than false unconditionally. -/
theorem c1_push_execution_false (st : Settings)
    (s : ExecutionRecursionDetector) (e : Execution)
    (h1 : s.execution_count + 1 ≤ st.max_executions)
    (h2 : e.base.isIterable = false)
    (h3 : e.parent_until ≠ builtinModule)
    (h4 : ¬(e.base ∈ s.parent_execution_funcs
          ∧ s.recursion_level + 1 > (st.max_function_recursion_level : Int)))
    (h5 : ¬(e.base ∈ s.execution_funcs
          ∧ (insert e.base s.execution_funcs).card > st.max_until_execution_unique))
    (h6 : s.execution_count + 1 ≤ st.max_executions_without_builtins) :
    (ExecutionRecursionDetector.push_execution st s e).1 = false := by
  rw [push_execution_fst, if_neg (by omega), if_neg (by simp [h2]), if_neg h3,
    if_neg (by simp only [Bool.and_eq_true, decide_eq_true_eq]; exact h4),
    if_neg (by simp only [Bool.and_eq_true, decide_eq_true_eq]; exact h5)]
  simp only [decide_eq_false_iff_not]
  omega

/-- C1 witness. -/
theorem c1_push_execution_false_witness :
    (ExecutionRecursionDetector.push_execution ⟨250, 200, 10, 6⟩
        initExecutionDetector ⟨⟨1, false⟩, 1⟩).1 = false :=
  c1_push_execution_false ⟨250, 200, 10, 6⟩ initExecutionDetector
    ⟨⟨1, false⟩, 1⟩ (by decide) (by decide) (by decide) (by decide)
    (by decide) (by decide)

/-- State of the execution guard after n nested push_execution calls of the
same execution from a fresh guard (no intervening pops; the state mutation
does not depend on the boolean results). -/
def pushNested (st : Settings) (e : Execution) :
    Nat → ExecutionRecursionDetector
  | 0 => initExecutionDetector
  | n + 1 =>
      (ExecutionRecursionDetector.push_execution st (pushNested st e n) e).2

/-- Closed form of the guard state after n nested pushes of one target. -/
theorem pushNested_eq (st : Settings) (e : Execution) (n : Nat) :
    pushNested st e n =
      { recursion_level := (n : Int)
        parent_execution_funcs := List.replicate n e.base
        execution_funcs := if n = 0 then ∅ else {e.base}
        execution_count := n } := by
  induction n with
  | zero => rfl
  | succ n ih =>
      rw [pushNested, push_execution_snd, ih]
      simp only [ExecutionRecursionDetector.mk.injEq]
      refine ⟨by push_cast; ring, (List.replicate_succ' n e.base).symm, ?_, trivial⟩
      cases n with
      | zero => simp
      | succ m => simp

/-- C4: with max_function_recursion_level = D, in a chain of D + 1 nested
pushes of one non-builtin, non-container target (budgets max_executions and
max_executions_without_builtins not yet exceeded, at least one unique
target allowed), the k-th push returns true exactly when the nesting depth
k first exceeds D, and false for every shallower push. -/
theorem c4_depth_ceiling (st : Settings) (e : Execution) (D k : Nat)
    (hD : st.max_function_recursion_level = D)
    (hD1 : 1 ≤ D)
    (hmax : D + 1 ≤ st.max_executions)
    (hewb : D + 1 ≤ st.max_executions_without_builtins)
    (huniq : 1 ≤ st.max_until_execution_unique)
    (hit : e.base.isIterable = false)
    (hmod : e.parent_until ≠ builtinModule)
    (hk1 : 1 ≤ k) (hk : k ≤ D + 1) :
    (ExecutionRecursionDetector.push_execution st
        (pushNested st e (k - 1)) e).1
      = decide (k = D + 1) := by
  obtain ⟨j, rfl⟩ : ∃ j, k = j + 1 :=
    ⟨k - 1, (Nat.succ_pred_eq_of_pos hk1).symm⟩
  rw [Nat.add_sub_cancel, pushNested_eq, push_execution_fst, hD]
  dsimp only
  by_cases hj : j = D
  · have hj0 : j ≠ 0 := by omega
    rw [if_neg (by omega), if_neg (by simp [hit]), if_neg hmod, if_pos ?_]
    · simp [hj]
    · simp only [Bool.and_eq_true, decide_eq_true_eq, List.mem_replicate]
      refine ⟨⟨hj0, trivial⟩, ?_⟩
      omega
  · have hjD : j < D := by omega
    rw [if_neg (by omega), if_neg (by simp [hit]), if_neg hmod,
      if_neg ?_, if_neg ?_]
    · have hngt : ¬(j + 1 > st.max_executions_without_builtins) := by omega
      have hne : ¬(j + 1 = D + 1) := by omega
      simp [hngt, hne]
    · by_cases hj0 : j = 0
      · subst hj0
        simp
      · have hins : insert e.base ({e.base} : Finset Base) = {e.base} := by
          simp
        simp only [if_neg hj0, Bool.and_eq_true, decide_eq_true_eq,
          Finset.mem_singleton, hins, Finset.card_singleton, not_and]
        intro _
        omega
    · simp only [Bool.and_eq_true, decide_eq_true_eq, List.mem_replicate,
        not_and]
      intro _
      omega

/-- C4 witness: D = 2, third nested push blocks, first and second do not. -/
theorem c4_depth_ceiling_witness :
    (ExecutionRecursionDetector.push_execution ⟨100, 50, 2, 5⟩
        (pushNested ⟨100, 50, 2, 5⟩ ⟨⟨1, false⟩, 1⟩ (3 - 1))
        ⟨⟨1, false⟩, 1⟩).1 = decide (3 = 2 + 1)
    ∧ (ExecutionRecursionDetector.push_execution ⟨100, 50, 2, 5⟩
        (pushNested ⟨100, 50, 2, 5⟩ ⟨⟨1, false⟩, 1⟩ (2 - 1))
        ⟨⟨1, false⟩, 1⟩).1 = decide (2 = 2 + 1)
    ∧ (ExecutionRecursionDetector.push_execution ⟨100, 50, 2, 5⟩
        (pushNested ⟨100, 50, 2, 5⟩ ⟨⟨1, false⟩, 1⟩ (1 - 1))
        ⟨⟨1, false⟩, 1⟩).1 = decide (1 = 2 + 1) :=
  ⟨c4_depth_ceiling ⟨100, 50, 2, 5⟩ ⟨⟨1, false⟩, 1⟩ 2 3 rfl (by decide)
      (by decide) (by decide) (by decide) (by decide) (by decide) (by decide)
      (by decide),
    c4_depth_ceiling ⟨100, 50, 2, 5⟩ ⟨⟨1, false⟩, 1⟩ 2 2 rfl (by decide)
      (by decide) (by decide) (by decide) (by decide) (by decide) (by decide)
      (by decide),
    c4_depth_ceiling ⟨100, 50, 2, 5⟩ ⟨⟨1, false⟩, 1⟩ 2 1 rfl (by decide)
      (by decide) (by decide) (by decide) (by decide) (by decide) (by decide)
      (by decide)⟩

/-- C10: a push_execution of a target the guard has never seen (in neither
execution_funcs nor parent_execution_funcs) can only be blocked by the
count budgets: if it returns true then the incremented execution_count
exceeds max_executions or max_executions_without_builtins; the depth and
breadth checks cannot fire because both memberships are sampled before the
target is inserted. -/
theorem c10_fresh_target_blocked_only_by_budgets (st : Settings)
    (s : ExecutionRecursionDetector) (e : Execution)
    (hp : e.base ∉ s.parent_execution_funcs)
    (hf : e.base ∉ s.execution_funcs)
    (ht : (ExecutionRecursionDetector.push_execution st s e).1 = true) :
    st.max_executions < s.execution_count + 1
    ∨ st.max_executions_without_builtins < s.execution_count + 1 := by
  rw [push_execution_fst] at ht
  split_ifs at ht with h1 h2 h3 h4 h5
  · left
    omega
  · rw [Bool.and_eq_true, decide_eq_true_eq, decide_eq_true_eq] at h4
    exact absurd h4.1 hp
  · rw [Bool.and_eq_true, decide_eq_true_eq, decide_eq_true_eq] at h5
    exact absurd h5.1 hf
  · right
    rw [decide_eq_true_eq] at ht
    omega

/-- C10 witness. -/
theorem c10_fresh_target_blocked_only_by_budgets_witness :
    (1 : Nat) < 5 + 1 ∨ (1 : Nat) < 5 + 1 :=
  c10_fresh_target_blocked_only_by_budgets ⟨1, 1, 5, 5⟩ ⟨0, [], ∅, 5⟩
    ⟨⟨1, false⟩, 1⟩ (by decide) (by decide) (by decide)

end JediRecursion
